import Mathlib

/-!
Verification of the `agentic-assistant-local` frontend (`src/api.jsx`,
`src/App.jsx`) and of the backend contract its spec describes.

The JavaScript source is shallowly embedded: `fetch` calls become values of
an `HttpRequest` type, response processing becomes pure functions on an
`HttpResponse` type (whose `body` is the already-parsed JSON document), and
the React component state of `App.jsx` becomes a `ClientState` record with
explicit state-transition functions for each handler.
-/

/-- A JSON document, the tree of primitive values that crosses the process
boundary (`JSON.stringify` / `res.json()`). Numbers are modelled as integers;
no claim under study depends on fractional numerics. -/
inductive Json where
  | null : Json
  | bool (b : Bool) : Json
  | num (n : Int) : Json
  | str (s : String) : Json
  | arr (items : List Json) : Json
  | obj (fields : List (String × Json)) : Json

/-- Field lookup in a JSON object field list, first match wins
(JavaScript property access on the parsed object). -/
def jsonLookup : List (String × Json) → String → Option Json
  | [], _ => none
  | (k, v) :: rest, key => if k = key then some v else jsonLookup rest key

/-- Property access `j.key` on a parsed JSON value: `none` models
JavaScript `undefined` (missing property or non-object receiver). -/
def Json.get? (j : Json) (key : String) : Option Json :=
  match j with
  | .obj fields => jsonLookup fields key
  | _ => none

/-- JavaScript falsiness of a parsed JSON value: `null`, `false`, `0` and
`""` are falsy; arrays and objects are always truthy. -/
def Json.falsy : Json → Bool
  | .null => true
  | .bool b => !b
  | .num n => n == 0
  | .str s => s == ""
  | .arr _ => false
  | .obj _ => false

/-- JavaScript falsiness of an optional value (`undefined` is falsy). -/
def jsFalsy? : Option Json → Bool
  | none => true
  | some j => j.falsy

/-- JavaScript `String(v)` on a parsed JSON primitive; composite values get
the simplified conventional renderings (enough for the claims, which only
exercise string-valued fields). -/
def Json.jsToString : Json → String
  | .null => "null"
  | .bool b => if b then "true" else "false"
  | .num n => toString n
  | .str s => s
  | .arr _ => ""
  | .obj _ => "[object Object]"

/-- One HTTP request as issued by `fetch` in `src/api.jsx`: method, full URL,
the `Content-Type` and `X-Conversation-Id` headers when the call sets them,
and the JSON body when one is sent. -/
structure HttpRequest where
  method : String
  url : String
  contentType : Option String
  xConversationId : Option String
  body : Option Json

/-- One HTTP response as seen by the client after `await res.json()`:
numeric status, status text, and the parsed JSON body. -/
structure HttpResponse where
  status : Nat
  statusText : String
  body : Json

/-- The `Response.ok` accessor of `fetch`: true exactly when the status is
in the 2xx range (200..299). -/
def HttpResponse.ok (r : HttpResponse) : Bool :=
  200 ≤ r.status && r.status ≤ 299

/-- JavaScript `s || ""` for a string-or-null value (`api.jsx` line 9,
`conversationId || ""`): `null`, `undefined` and `""` all yield `""`. -/
def jsOrEmpty : Option String → String
  | none => ""
  | some s => if s = "" then "" else s

/-- The `API_BASE` constant of `api.jsx`:
`import.meta.env.VITE_API_BASE || "http://localhost:8000"`, where `env` is
the build-time environment value (falsy when unset or empty). -/
def apiBase (env : Option String) : String :=
  match env with
  | none => "http://localhost:8000"
  | some e => if e = "" then "http://localhost:8000" else e

/-- The single request built by `plan(user_input, conversationId)` in
`api.jsx` lines 5-12: `POST ${API_BASE}/plan` with JSON content type, the
`X-Conversation-Id` header set to `conversationId || ""`, and body
`JSON.stringify({ user_input })`. -/
def planRequest (env : Option String) (user_input : String)
    (conversationId : Option String) : HttpRequest :=
  { method := "POST"
    url := apiBase env ++ "/plan"
    contentType := some "application/json"
    xConversationId := some (jsOrEmpty conversationId)
    body := some (Json.obj [("user_input", Json.str user_input)]) }

/-- The complete list of HTTP requests one invocation of `plan` issues
(`api.jsx` contains exactly one `fetch` in `plan`). -/
def planRequests (env : Option String) (user_input : String)
    (conversationId : Option String) : List HttpRequest :=
  [planRequest env user_input conversationId]

/-- Response processing of `plan` (`api.jsx` lines 13-15): after parsing the
body, a non-ok status throws `new Error(data.error || res.statusText)`;
otherwise the parsed body is returned unchanged. -/
def planHandle (resp : HttpResponse) : Except String Json :=
  if resp.ok then Except.ok resp.body
  else
    Except.error
      (match resp.body.get? "error" with
       | some v => if v.falsy then resp.statusText else v.jsToString
       | none => resp.statusText)

/-- The request built by `listConversations()` (`api.jsx` lines 19-22). -/
def listConversationsRequest (env : Option String) : HttpRequest :=
  { method := "GET"
    url := apiBase env ++ "/conversations"
    contentType := none
    xConversationId := none
    body := none }

/-- Response processing of `listConversations()`: `return await r.json()` —
the parsed body is returned with no status inspection. -/
def listConversationsHandle (resp : HttpResponse) : Except String Json :=
  Except.ok resp.body

/-- The request built by `getConversation(cid)` (`api.jsx` lines 23-26). -/
def getConversationRequest (env : Option String) (cid : String) : HttpRequest :=
  { method := "GET"
    url := apiBase env ++ "/conversations/" ++ cid
    contentType := none
    xConversationId := none
    body := none }

/-- Response processing of `getConversation(cid)`: `return await r.json()`. -/
def getConversationHandle (resp : HttpResponse) : Except String Json :=
  Except.ok resp.body

/-- The request built by `deleteConversation(cid)` (`api.jsx` lines 27-30). -/
def deleteConversationRequest (env : Option String) (cid : String) : HttpRequest :=
  { method := "DELETE"
    url := apiBase env ++ "/conversations/" ++ cid
    contentType := none
    xConversationId := none
    body := none }

/-- Response processing of `deleteConversation(cid)`: `return await r.json()`. -/
def deleteConversationHandle (resp : HttpResponse) : Except String Json :=
  Except.ok resp.body

/-- JavaScript whitespace as recognised by `String.prototype.trim`: ASCII
whitespace and the common Unicode space/line separators. -/
def isJsWS (c : Char) : Bool :=
  c == ' ' || c == '\t' || c == '\n' || c == '\r' ||
  c == Char.ofNat 0x0B || c == Char.ofNat 0x0C ||
  c == Char.ofNat 0xA0 || c == Char.ofNat 0x2028 ||
  c == Char.ofNat 0x2029 || c == Char.ofNat 0xFEFF

/-- Trimming of a character list: drop leading whitespace, then drop
trailing whitespace by reversing, dropping, and reversing back. -/
def trimChars (l : List Char) : List Char :=
  ((l.dropWhile isJsWS).reverse.dropWhile isJsWS).reverse

/-- JavaScript `input.trim()`. -/
def jsTrim (s : String) : String :=
  String.mk (trimChars s.toList)

/-- The plan envelope as the frontend consumes it
(`{ conversation_id, plan_text, tool_call, tool_output, final_answer }`);
a `none` field models the property being absent or `null` in the JSON. -/
structure Envelope where
  conversation_id : Option String
  plan_text : Option String
  tool_call : Option Json
  tool_output : Option Json
  final_answer : Option String

/-- The React state of `App` (`App.jsx` lines 64-69) together with the
`conv_id` entry of `localStorage`, which the component reads and writes. -/
structure ClientState where
  input : String
  busy : Bool
  res : Option Envelope
  err : String
  convId : Option String
  storage : Option String

/-- The `useState` initialiser of `convId`
(`localStorage.getItem("conv_id") || null`) applied to the stored entry. -/
def initConvId (storage : Option String) : Option String :=
  match storage with
  | none => none
  | some s => if s = "" then none else some s

/-- The mount effect (`App.jsx` lines 71-79): read `conv_id` from storage;
when missing (or empty, which is falsy under `!id`), mint a fresh
identifier `m` and persist it; then adopt the identifier into state. -/
def mountEffect (m : String) (s : ClientState) : ClientState :=
  if jsOrEmpty s.storage = "" then
    { s with storage := some m, convId := some m }
  else
    { s with convId := some (jsOrEmpty s.storage) }

/-- The `resetConversation` handler (`App.jsx` lines 81-87): mint a fresh
identifier `m`, persist it, adopt it, and clear the displayed result. -/
def resetConversation (m : String) (s : ClientState) : ClientState :=
  { s with storage := some m, convId := some m, res := none }

/-- The `newConversation` handler (`App.jsx` lines 105-110): remove the
persisted entry, clear the conversation id, the result and the input. -/
def newConversation (s : ClientState) : ClientState :=
  { s with storage := none, convId := none, res := none, input := "" }

/-- The adoption guard of `askPlan` (`App.jsx` line 95):
`data.conversation_id && data.conversation_id !== convId`. -/
def adoptGuard (returned : Option String) (convId : Option String) : Bool :=
  match returned with
  | none => false
  | some rid => rid != "" && convId != some rid

/-- The `askPlan` handler (`App.jsx` lines 89-103) as a state transition.
`respond` abstracts the network: it maps the issued request to either a
successful envelope or the message of the error `plan` threw. The function
returns the successor state together with the list of HTTP requests the
handler issued. An input that is empty after trimming returns before any
state update or request (`if (!input.trim()) return;`). -/
def askPlanStep (env : Option String)
    (respond : HttpRequest → Except String Envelope)
    (s : ClientState) : ClientState × List HttpRequest :=
  if jsTrim s.input = "" then (s, [])
  else
    let s1 : ClientState := { s with busy := true, err := "", res := none }
    let req := planRequest env (jsTrim s.input) s.convId
    match respond req with
    | Except.ok data =>
        let s2 : ClientState :=
          if adoptGuard data.conversation_id s1.convId then
            { s1 with storage := data.conversation_id
                      convId := data.conversation_id }
          else s1
        ({ s2 with res := some data, busy := false }, [req])
    | Except.error msg =>
        ({ s1 with err := if msg = "" then "Error" else msg, busy := false },
         [req])

/-- Modelled from the spec: an email-search result record
`{id, subject, from, date, snippet}` (the backend tool implementation is not
part of the provided sources). The JSON key `from` is a Lean keyword and is
carried by the field `fromAddr`. -/
structure EmailRecord where
  id : String
  subject : String
  fromAddr : String
  date : String
  snippet : String

/-- JSON rendering of an email record at the process boundary. -/
def EmailRecord.toJson (m : EmailRecord) : Json :=
  Json.obj [("id", Json.str m.id), ("subject", Json.str m.subject),
            ("from", Json.str m.fromAddr), ("date", Json.str m.date),
            ("snippet", Json.str m.snippet)]

/-- Modelled from the spec: a free-slot record `{start, end}` of ISO-8601
instants. The JSON key `end` is a Lean keyword and is carried by the field
`stop`. -/
structure TimeSlot where
  start : String
  stop : String

/-- JSON rendering of a free-slot record. -/
def TimeSlot.toJson (s : TimeSlot) : Json :=
  Json.obj [("start", Json.str s.start), ("end", Json.str s.stop)]

/-- Modelled from the spec: a created-event record
`{summary, start, end, htmlLink}`. -/
structure CreatedEvent where
  summary : String
  start : String
  stop : String
  htmlLink : String

/-- JSON rendering of a created-event record. -/
def CreatedEvent.toJson (e : CreatedEvent) : Json :=
  Json.obj [("summary", Json.str e.summary), ("start", Json.str e.start),
            ("end", Json.str e.stop), ("htmlLink", Json.str e.htmlLink)]

/-- Modelled from the spec: the ToolResult payload of a successful tool
execution — one of the three tool-specific shapes the spec lists for the
boundary (email search, free-slot search, event creation). -/
inductive ToolPayload where
  | emails (items : List EmailRecord) : ToolPayload
  | freeSlots (items : List TimeSlot) : ToolPayload
  | created (ev : CreatedEvent) : ToolPayload

/-- JSON rendering of a ToolResult payload at the boundary. -/
def ToolPayload.toJson : ToolPayload → Json
  | .emails items => Json.arr (items.map EmailRecord.toJson)
  | .freeSlots items => Json.arr (items.map TimeSlot.toJson)
  | .created ev => ev.toJson

/-- Whether the JSON object field list has a string at the given key. -/
def hasStrField (j : Json) (key : String) : Bool :=
  match j.get? key with
  | some (Json.str _) => true
  | _ => false

/-- Shape of one email-search record per the spec:
an object carrying string fields `id, subject, from, date, snippet`. -/
def isEmailRecordJson (j : Json) : Bool :=
  hasStrField j "id" && hasStrField j "subject" && hasStrField j "from" &&
  hasStrField j "date" && hasStrField j "snippet"

/-- Shape of one free-slot record per the spec: an object carrying string
fields `start` and `end`. -/
def isSlotRecordJson (j : Json) : Bool :=
  hasStrField j "start" && hasStrField j "end"

/-- Email-search payload shape per the spec: a sequence of
`{id, subject, from, date, snippet}` records. -/
def emailShape (j : Json) : Bool :=
  match j with
  | Json.arr xs => xs.all isEmailRecordJson
  | _ => false

/-- Free-slot payload shape per the spec: a sequence of `{start, end}`
records. -/
def slotShape (j : Json) : Bool :=
  match j with
  | Json.arr xs => xs.all isSlotRecordJson
  | _ => false

/-- Event-creation payload shape per the spec: a
`{summary, start, end, htmlLink}` record. -/
def eventShape (j : Json) : Bool :=
  hasStrField j "summary" && hasStrField j "start" && hasStrField j "end" &&
  hasStrField j "htmlLink"

/-- Number of the three boundary shapes a JSON payload conforms to. -/
def shapeCount (j : Json) : Nat :=
  (if emailShape j then 1 else 0) + (if slotShape j then 1 else 0) +
  (if eventShape j then 1 else 0)

/-- Whether a JSON value is the empty sequence. -/
def isEmptyArr : Json → Bool
  | Json.arr [] => true
  | _ => false

/-- Modelled from the spec: the Planner's output — exactly one structured
tool call (name + arguments) or a direct-answer decision requiring no
tool. -/
inductive PlannerDecision where
  | callTool (name : String) (args : Json) : PlannerDecision
  | direct (answer : String) : PlannerDecision

/-- Modelled from the spec: the PlannerError kinds
(`upstream_unavailable`, `malformed_output`). -/
inductive PlannerFailure where
  | upstreamUnavailable : PlannerFailure
  | malformedOutput : PlannerFailure

/-- Modelled from the spec: ToolResult — tagged union of a success payload
or a failure with kind and message. -/
inductive ToolOutcome where
  | success (payload : Json) : ToolOutcome
  | failure (kind : String) (message : String) : ToolOutcome

/-- Modelled from the spec: a Tool Capability — declared input-schema
validation plus an execution operation that may fail. -/
structure ToolCapability where
  validate : Json → Bool
  execute : Json → ToolOutcome

/-- Modelled from the spec: one Turn of a conversation as the backend
stores it. -/
structure BackTurn where
  input : String
  toolCall : Option (String × Json)
  toolResult : Option ToolOutcome
  finalAnswer : String

/-- Modelled from the spec: the PlanEnvelope the orchestrator returns. A
`none` `final_answer` would model a `null` field at the boundary. -/
structure PlanEnvelope where
  conversation_id : String
  plan_text : String
  tool_call : Option (String × Json)
  tool_output : Option Json
  final_answer : Option String

/-- Lookup of a registered tool capability by name in the Tool Registry. -/
def registryFind : List (String × ToolCapability) → String → Option ToolCapability
  | [], _ => none
  | (k, t) :: rest, key => if k = key then some t else registryFind rest key

/-- Load of the ordered turn log of a conversation from the store. -/
def storeLoad : List (String × List BackTurn) → String → Option (List BackTurn)
  | [], _ => none
  | (k, ts) :: rest, key => if k = key then some ts else storeLoad rest key

/-- Modelled from the spec: conversation-identifier resolution — a missing,
empty, or unknown identifier causes the orchestrator to start a fresh
conversation under the minted identifier `mint`. -/
def resolveCid (store : List (String × List BackTurn)) (mint : String)
    (cid : Option String) : String :=
  match cid with
  | none => mint
  | some c => if c = "" then mint else match storeLoad store c with
      | some _ => c
      | none => mint

/-- Modelled from the spec: the Response Composer for a successful tool
execution — a natural-language answer referencing the result. -/
def composeSuccess (user_input : String) (toolName : String) : String :=
  "Done: " ++ toolName ++ " handled \xab" ++ user_input ++ "\xbb."

/-- Modelled from the spec: the Response Composer for a recovered planner
or dispatch failure — never a raw stack trace. -/
def composeFailure (reason : String) : String :=
  "I could not complete that: " ++ reason ++ "."

/-- Modelled from the spec: the Turn Orchestrator `plan(user_input,
conversationId)` of the backend, which is not part of the provided sources.
It sequences store read, Planner, Dispatcher and Composer: empty input is
rejected before planning (`InputError`, the only error path); planner and
dispatch failures are recovered locally into a composed answer. The result
is the envelope together with the store extended by the appended Turn. -/
def planCore (registry : List (String × ToolCapability))
    (decider : List BackTurn → String → Except PlannerFailure PlannerDecision)
    (store : List (String × List BackTurn)) (mint : String)
    (cid : Option String) (user_input : String) :
    Except String (PlanEnvelope × List (String × List BackTurn)) :=
  if jsTrim user_input = "" then Except.error "InputError: empty input"
  else
    let cid' := resolveCid store mint cid
    let history := (storeLoad store cid').getD []
    let outcome : PlanEnvelope :=
      match decider history user_input with
      | Except.error _ =>
          { conversation_id := cid', plan_text := "planner failed",
            tool_call := none, tool_output := none,
            final_answer := some (composeFailure "the planner was unavailable") }
      | Except.ok (PlannerDecision.direct ans) =>
          { conversation_id := cid', plan_text := "direct answer",
            tool_call := none, tool_output := none,
            final_answer := some ans }
      | Except.ok (PlannerDecision.callTool n args) =>
          match registryFind registry n with
          | none =>
              { conversation_id := cid', plan_text := "unknown tool " ++ n,
                tool_call := none, tool_output := none,
                final_answer := some (composeFailure "the planner chose an unknown tool") }
          | some cap =>
              if cap.validate args then
                match cap.execute args with
                | ToolOutcome.success payload =>
                    { conversation_id := cid', plan_text := "tool " ++ n,
                      tool_call := some (n, args), tool_output := some payload,
                      final_answer := some (composeSuccess user_input n) }
                | ToolOutcome.failure kind _ =>
                    { conversation_id := cid', plan_text := "tool " ++ n,
                      tool_call := some (n, args), tool_output := none,
                      final_answer := some (composeFailure kind) }
              else
                { conversation_id := cid',
                  plan_text := "invalid arguments for " ++ n,
                  tool_call := none, tool_output := none,
                  final_answer := some (composeFailure "invalid tool arguments") }
    let turn : BackTurn :=
      { input := user_input, toolCall := outcome.tool_call,
        toolResult := none, finalAnswer := (outcome.final_answer).getD "" }
    Except.ok (outcome, (cid', (history ++ [turn])) :: store)

/-- The head of a `dropWhile` result never satisfies the dropped
predicate. -/
theorem head?_dropWhile_not {α : Type} (p : α → Bool) (l : List α) (c : α)
    (h : (l.dropWhile p).head? = some c) : p c = false := by
  induction l with
  | nil => simp [List.dropWhile] at h
  | cons a t ih =>
    rw [List.dropWhile_cons] at h
    by_cases hpa : p a = true
    · rw [if_pos hpa] at h
      exact ih h
    · rw [if_neg hpa] at h
      simp at h
      rw [← h]
      exact Bool.eq_false_iff.mpr hpa

/-- When `dropWhile` leaves a non-empty list, the last element is the last
element of the original list. -/
theorem getLast?_dropWhile_some {α : Type} (p : α → Bool) (l : List α) (c : α)
    (h : (l.dropWhile p).getLast? = some c) : l.getLast? = some c := by
  induction l with
  | nil => simp [List.dropWhile] at h
  | cons a t ih =>
    rw [List.dropWhile_cons] at h
    by_cases hpa : p a = true
    · rw [if_pos hpa] at h
      have ht := ih h
      cases t with
      | nil => simp at ht
      | cons b t2 =>
        rw [List.getLast?_cons_cons]
        exact ht
    · rw [if_neg hpa] at h
      exact h

/-- The first character of a trimmed character list is not whitespace. -/
theorem trimChars_head_not_ws (l : List Char) (c : Char)
    (h : (trimChars l).head? = some c) : isJsWS c = false := by
  unfold trimChars at h
  rw [List.head?_reverse] at h
  have h2 := getLast?_dropWhile_some isJsWS _ c h
  rw [List.getLast?_reverse] at h2
  exact head?_dropWhile_not isJsWS l c h2

/-- The last character of a trimmed character list is not whitespace. -/
theorem trimChars_getLast_not_ws (l : List Char) (c : Char)
    (h : (trimChars l).getLast? = some c) : isJsWS c = false := by
  unfold trimChars at h
  rw [List.getLast?_reverse] at h
  exact head?_dropWhile_not isJsWS _ c h

/-- The list of requests one `askPlan` invocation issues: none when the
input trims to empty, otherwise exactly the one request `plan` builds. -/
theorem askPlanStep_requests (envv : Option String)
    (respond : HttpRequest → Except String Envelope) (st : ClientState) :
    (askPlanStep envv respond st).2 =
      if jsTrim st.input = "" then []
      else [planRequest envv (jsTrim st.input) st.convId] := by
  unfold askPlanStep
  by_cases h : jsTrim st.input = ""
  · rw [if_pos h, if_pos h]
  · rw [if_neg h, if_neg h]
    cases hr : respond (planRequest envv (jsTrim st.input) st.convId) <;> simp [hr]

/-- C1: every invocation of `plan(user_input, conversationId)` issues
exactly one HTTP POST to the `/plan` endpoint with JSON body
`{ user_input }` and an `X-Conversation-Id` header carrying the given
conversation id, or the empty string when the id is absent/null. -/
theorem c1_plan_single_post (env : Option String) (ui : String)
    (cid : Option String) :
    ∃ r, planRequests env ui cid = [r] ∧ r.method = "POST" ∧
      r.url = apiBase env ++ "/plan" ∧
      r.contentType = some "application/json" ∧
      r.body = some (Json.obj [("user_input", Json.str ui)]) ∧
      r.xConversationId = some (cid.getD "") := by
  refine ⟨planRequest env ui cid, rfl, rfl, rfl, rfl, rfl, ?_⟩
  cases cid with
  | none => rfl
  | some c =>
    show some (if c = "" then "" else c) = some c
    by_cases hc : c = ""
    · rw [if_pos hc, hc]
    · rw [if_neg hc]

/-- The concrete failing response for claim C2: a 500 whose body carries an
`error` field that is present but the empty string. -/
def c2Resp : HttpResponse :=
  { status := 500, statusText := "Internal Server Error",
    body := Json.obj [("error", Json.str "")] }

/-- C2 fails as stated: on this non-2xx response the body's `error` string
is present (it is `""`), yet the thrown message is the status text, because
`data.error || res.statusText` also falls back on a present-but-empty
(falsy) `error` field. -/
theorem c2_counterexample :
    c2Resp.body.get? "error" = some (Json.str "") ∧
    HttpResponse.ok c2Resp = false ∧
    planHandle c2Resp = Except.error "Internal Server Error" ∧
    "Internal Server Error" ≠ "" := by
  refine ⟨rfl, rfl, rfl, by decide⟩

/-- Whether the `error` field of the response body is absent or a string,
the only cases the error contract `{ error: string }` admits. -/
def errFieldStringOrAbsent (resp : HttpResponse) : Bool :=
  match resp.body.get? "error" with
  | none => true
  | some (Json.str _) => true
  | some _ => false

/-- C2 amended: `plan()` raises an error exactly on a non-2xx status; the
raised message is the `error` string from the response body, falling back
to the HTTP status text when that field is absent **or empty**; on a 2xx
response the parsed body is returned unchanged with no error raised. -/
theorem c2_error_contract (resp : HttpResponse)
    (hfield : errFieldStringOrAbsent resp = true) :
    (resp.ok = true → planHandle resp = Except.ok resp.body) ∧
    (resp.ok = false →
      planHandle resp = Except.error
        (match resp.body.get? "error" with
         | some (Json.str e) => if e = "" then resp.statusText else e
         | _ => resp.statusText)) := by
  constructor
  · intro hok
    unfold planHandle
    rw [hok]
    rfl
  · intro hok
    unfold planHandle
    rw [hok]
    simp only [Bool.false_eq_true, if_false]
    unfold errFieldStringOrAbsent at hfield
    cases hget : resp.body.get? "error" with
    | none => rfl
    | some v =>
      rw [hget] at hfield
      cases v with
      | str e =>
        by_cases he : e = "" <;>
          simp [Json.falsy, Json.jsToString, he]
      | null => simp at hfield
      | bool b => simp at hfield
      | num n => simp at hfield
      | arr items => simp at hfield
      | obj fields => simp at hfield

/-- Witness for the amended C2 at a concrete 404 carrying
`{ error: "boom" }`. -/
theorem c2_error_contract_witness :
    planHandle { status := 404, statusText := "Not Found",
                 body := Json.obj [("error", Json.str "boom")] } =
      Except.error "boom" := by
  have h := c2_error_contract
    { status := 404, statusText := "Not Found",
      body := Json.obj [("error", Json.str "boom")] } (by rfl)
  exact h.2 rfl

/-- C3: when `plan()` returns a conversation id (a non-empty string)
different from the one the caller sent — including the absent case — the
caller adopts it: it is written to state and storage, and every plan
request issued from the resulting state carries it as the
`X-Conversation-Id` header. -/
theorem c3_adopts_returned_id (envv : Option String)
    (respond : HttpRequest → Except String Envelope)
    (s : ClientState) (data : Envelope) (rid : String)
    (hne : jsTrim s.input ≠ "")
    (hresp : respond (planRequest envv (jsTrim s.input) s.convId) =
      Except.ok data)
    (hrid : data.conversation_id = some rid)
    (hrne : rid ≠ "")
    (hdiff : s.convId ≠ some rid) :
    (askPlanStep envv respond s).1.convId = some rid ∧
    (askPlanStep envv respond s).1.storage = some rid ∧
    ∀ inp r, r ∈ (askPlanStep envv respond
        { (askPlanStep envv respond s).1 with input := inp }).2 →
      r.xConversationId = some rid := by
  have hguard : adoptGuard data.conversation_id s.convId = true := by
    rw [hrid]
    show (rid != "" && (s.convId != some rid)) = true
    rw [Bool.and_eq_true, bne_iff_ne, bne_iff_ne]
    exact ⟨hrne, hdiff⟩
  have hguard2 : adoptGuard (some rid) s.convId = true := hrid ▸ hguard
  have hstate : (askPlanStep envv respond s).1.convId = some rid ∧
      (askPlanStep envv respond s).1.storage = some rid := by
    unfold askPlanStep
    simp [if_neg hne, hresp, hrid, hguard2]
  refine ⟨hstate.1, hstate.2, ?_⟩
  intro inp r hmem
  rw [askPlanStep_requests] at hmem
  by_cases hi : jsTrim inp = ""
  · simp [hi] at hmem
  · simp [hi] at hmem
    rw [hmem]
    show some (jsOrEmpty ((askPlanStep envv respond s).1.convId)) = some rid
    rw [hstate.1]
    show some (if rid = "" then "" else rid) = some rid
    rw [if_neg hrne]

/-- The client state used to witness claim C3: no conversation id yet. -/
def c3State : ClientState :=
  { input := "hello", busy := false, res := none, err := "",
    convId := none, storage := none }

/-- The envelope used to witness claim C3: the orchestrator minted
`fresh-id`. -/
def c3Envelope : Envelope :=
  { conversation_id := some "fresh-id", plan_text := some "p",
    tool_call := none, tool_output := none, final_answer := some "a" }

/-- Witness for C3: from a state with no conversation id, a response
carrying `fresh-id` is adopted into state and storage. -/
theorem c3_adopts_returned_id_witness :
    (askPlanStep none (fun _ => Except.ok c3Envelope) c3State).1.convId =
      some "fresh-id" ∧
    (askPlanStep none (fun _ => Except.ok c3Envelope) c3State).1.storage =
      some "fresh-id" := by
  have h := c3_adopts_returned_id none (fun _ => Except.ok c3Envelope)
    c3State c3Envelope "fresh-id" (by decide) rfl rfl (by decide) (by decide)
  exact ⟨h.1, h.2.1⟩

/-- C4: an input that is empty after trimming is rejected before anything
happens — `askPlan` returns with the state unchanged and no HTTP request
issued. -/
theorem c4_empty_input_no_request (envv : Option String)
    (respond : HttpRequest → Except String Envelope) (s : ClientState)
    (h : jsTrim s.input = "") :
    askPlanStep envv respond s = (s, []) := by
  unfold askPlanStep
  rw [if_pos h]

/-- Witness for C4 at the all-whitespace input. -/
theorem c4_empty_input_no_request_witness :
    askPlanStep none (fun _ => Except.error "down")
      { input := "   ", busy := false, res := none, err := "",
        convId := some "c0", storage := some "c0" } =
      ({ input := "   ", busy := false, res := none, err := "",
         convId := some "c0", storage := some "c0" }, []) :=
  c4_empty_input_no_request none (fun _ => Except.error "down") _ (by decide)

/-- Every email record renders to JSON conforming to the email-record
shape. -/
theorem isEmailRecordJson_toJson (m : EmailRecord) :
    isEmailRecordJson m.toJson = true := rfl

/-- An email record's JSON does not conform to the slot-record shape (it
has no `start` field). -/
theorem not_isSlotRecordJson_email (m : EmailRecord) :
    isSlotRecordJson m.toJson = false := rfl

/-- Every free-slot record renders to JSON conforming to the slot-record
shape. -/
theorem isSlotRecordJson_toJson (s : TimeSlot) :
    isSlotRecordJson s.toJson = true := rfl

/-- A free-slot record's JSON does not conform to the email-record shape
(it has no `id` field). -/
theorem not_isEmailRecordJson_slot (s : TimeSlot) :
    isEmailRecordJson s.toJson = false := rfl

/-- C5 fails as stated: the empty sequence — a legitimate email-search
payload (zero results) — conforms to both the email-search shape and the
free-slot shape, so it does not conform to exactly one of the three
boundary shapes. -/
theorem c5_counterexample :
    ToolPayload.toJson (ToolPayload.emails []) = Json.arr [] ∧
    emailShape (ToolPayload.toJson (ToolPayload.emails [])) = true ∧
    slotShape (ToolPayload.toJson (ToolPayload.emails [])) = true ∧
    shapeCount (ToolPayload.toJson (ToolPayload.emails [])) = 2 :=
  ⟨rfl, rfl, rfl, rfl⟩

/-- C5 amended: every ToolResult payload conforms to at least one of the
three boundary shapes, and to exactly one unless it is the empty sequence
(which matches both sequence shapes vacuously). -/
theorem c5_payload_shapes (p : ToolPayload)
    (hne : isEmptyArr p.toJson = false) :
    1 ≤ shapeCount p.toJson ∧ shapeCount p.toJson = 1 := by
  cases p with
  | emails items =>
    cases items with
    | nil => simp [ToolPayload.toJson, isEmptyArr] at hne
    | cons m rest =>
      have hemail : emailShape (ToolPayload.toJson (ToolPayload.emails (m :: rest))) = true := by
        show ((m :: rest).map EmailRecord.toJson).all isEmailRecordJson = true
        simp [List.all_eq_true, isEmailRecordJson_toJson]
      have hslot : slotShape (ToolPayload.toJson (ToolPayload.emails (m :: rest))) = false := by
        show ((m :: rest).map EmailRecord.toJson).all isSlotRecordJson = false
        simp [not_isSlotRecordJson_email m]
      have hevent : eventShape (ToolPayload.toJson (ToolPayload.emails (m :: rest))) = false := rfl
      unfold shapeCount
      rw [hemail, hslot, hevent]
      exact ⟨by decide, by decide⟩
  | freeSlots items =>
    cases items with
    | nil => simp [ToolPayload.toJson, isEmptyArr] at hne
    | cons sl rest =>
      have hslot : slotShape (ToolPayload.toJson (ToolPayload.freeSlots (sl :: rest))) = true := by
        show ((sl :: rest).map TimeSlot.toJson).all isSlotRecordJson = true
        simp [List.all_eq_true, isSlotRecordJson_toJson]
      have hemail : emailShape (ToolPayload.toJson (ToolPayload.freeSlots (sl :: rest))) = false := by
        show ((sl :: rest).map TimeSlot.toJson).all isEmailRecordJson = false
        simp [not_isEmailRecordJson_slot sl]
      have hevent : eventShape (ToolPayload.toJson (ToolPayload.freeSlots (sl :: rest))) = false := rfl
      unfold shapeCount
      rw [hemail, hslot, hevent]
      exact ⟨by decide, by decide⟩
  | created ev =>
    have hevent : eventShape (ToolPayload.toJson (ToolPayload.created ev)) = true := rfl
    have hemail : emailShape (ToolPayload.toJson (ToolPayload.created ev)) = false := rfl
    have hslot : slotShape (ToolPayload.toJson (ToolPayload.created ev)) = false := rfl
    unfold shapeCount
    rw [hemail, hslot, hevent]
    exact ⟨by decide, by decide⟩

/-- Witness for the amended C5 at a concrete created-event payload. -/
theorem c5_payload_shapes_witness :
    1 ≤ shapeCount (ToolPayload.toJson
        (ToolPayload.created ⟨"sync", "t0", "t1", "link"⟩)) ∧
    shapeCount (ToolPayload.toJson
        (ToolPayload.created ⟨"sync", "t0", "t1", "link"⟩)) = 1 :=
  c5_payload_shapes (ToolPayload.created ⟨"sync", "t0", "t1", "link"⟩) rfl

/-- C6: for every input that is non-empty after trimming, one call to the
orchestrator yields exactly one PlanEnvelope (`planCore` is a function and
returns a single `Except.ok` value), and its `final_answer` is non-null:
every planner or dispatch failure is recovered into a composed answer. -/
theorem c6_nonempty_input_final_answer
    (registry : List (String × ToolCapability))
    (decider : List BackTurn → String → Except PlannerFailure PlannerDecision)
    (store : List (String × List BackTurn)) (mint : String)
    (cid : Option String) (input : String)
    (h : jsTrim input ≠ "") :
    ∃ env store2,
      planCore registry decider store mint cid input =
        Except.ok (env, store2) ∧
      env.final_answer.isSome = true := by
  simp only [planCore, if_neg h]
  cases hd : decider ((storeLoad store (resolveCid store mint cid)).getD []) input with
  | error e => exact ⟨_, _, rfl, rfl⟩
  | ok d =>
    cases d with
    | direct ans => exact ⟨_, _, rfl, rfl⟩
    | callTool n args =>
      dsimp only
      cases hr : registryFind registry n with
      | none => exact ⟨_, _, rfl, rfl⟩
      | some cap =>
        dsimp only
        by_cases hv : cap.validate args = true
        · rw [if_pos hv]
          cases he : cap.execute args with
          | success payload => exact ⟨_, _, rfl, rfl⟩
          | failure kind msg => exact ⟨_, _, rfl, rfl⟩
        · rw [if_neg hv]
          exact ⟨_, _, rfl, rfl⟩

/-- Witness for C6 with a direct-answer planner on the input `hello`. -/
theorem c6_nonempty_input_final_answer_witness :
    ∃ env store2,
      planCore [] (fun _ _ => Except.ok (PlannerDecision.direct "hi"))
          [] "m0" none "hello" =
        Except.ok (env, store2) ∧
      env.final_answer.isSome = true :=
  c6_nonempty_input_final_answer [] (fun _ _ => Except.ok (PlannerDecision.direct "hi"))
    [] "m0" none "hello" (by decide)

/-- C8: the auxiliary client operations return the parsed body for every
response — also non-2xx ones — and never produce an error: their result is
`Except.ok` of the body regardless of the status fields, which they never
inspect. -/
theorem c8_aux_ignore_status (resp : HttpResponse) :
    listConversationsHandle resp = Except.ok resp.body ∧
    getConversationHandle resp = Except.ok resp.body ∧
    deleteConversationHandle resp = Except.ok resp.body ∧
    (listConversationsHandle resp).isOk = true ∧
    (getConversationHandle resp).isOk = true ∧
    (deleteConversationHandle resp).isOk = true :=
  ⟨rfl, rfl, rfl, rfl, rfl, rfl⟩

/-- C9: every request `askPlan` issues carries as `user_input` the trimmed
form of the typed input, and that string has no leading and no trailing
whitespace character. -/
theorem c9_sends_trimmed_input (envv : Option String)
    (respond : HttpRequest → Except String Envelope) (s : ClientState)
    (r : HttpRequest)
    (hmem : r ∈ (askPlanStep envv respond s).2) :
    r.body = some (Json.obj [("user_input", Json.str (jsTrim s.input))]) ∧
    (∀ c, (jsTrim s.input).toList.head? = some c → isJsWS c = false) ∧
    (∀ c, (jsTrim s.input).toList.getLast? = some c → isJsWS c = false) := by
  have hr : r = planRequest envv (jsTrim s.input) s.convId := by
    rw [askPlanStep_requests] at hmem
    by_cases hi : jsTrim s.input = ""
    · rw [if_pos hi] at hmem
      cases hmem
    · rw [if_neg hi] at hmem
      simpa using hmem
  subst hr
  refine ⟨rfl, ?_, ?_⟩
  · intro c hc
    exact trimChars_head_not_ws s.input.toList c hc
  · intro c hc
    exact trimChars_getLast_not_ws s.input.toList c hc

/-- The client state used to witness claim C9: input with surrounding
whitespace. -/
def c9State : ClientState :=
  { input := " hi ", busy := false, res := none, err := "",
    convId := some "c0", storage := some "c0" }

/-- Witness for C9: the transmitted `user_input` for the typed input
`" hi "` is exactly `"hi"`. -/
theorem c9_sends_trimmed_input_witness :
    (planRequest none "hi" (some "c0")).body =
      some (Json.obj [("user_input", Json.str "hi")]) := by
  have hlist : (askPlanStep none (fun _ => Except.error "down") c9State).2 =
      [planRequest none "hi" (some "c0")] := rfl
  have hmem : planRequest none "hi" (some "c0") ∈
      (askPlanStep none (fun _ => Except.error "down") c9State).2 := by
    rw [hlist]
    exact List.mem_singleton_self _
  exact (c9_sends_trimmed_input none (fun _ => Except.error "down")
    c9State (planRequest none "hi" (some "c0")) hmem).1

/-- C10: starting from a state where the in-memory conversation id and the
persisted `conv_id` entry agree, every operation — initial mount, reset,
new conversation, and an `askPlan` turn (including adoption of a returned
id) — leaves them in agreement: both equal or both absent. -/
theorem c10_convid_storage_agreement (m : String) (envv : Option String)
    (respond : HttpRequest → Except String Envelope) (s : ClientState)
    (h : s.convId = s.storage) :
    (mountEffect m s).convId = (mountEffect m s).storage ∧
    (resetConversation m s).convId = (resetConversation m s).storage ∧
    (newConversation s).convId = (newConversation s).storage ∧
    (askPlanStep envv respond s).1.convId =
      (askPlanStep envv respond s).1.storage := by
  refine ⟨?_, rfl, rfl, ?_⟩
  · unfold mountEffect
    by_cases hs : jsOrEmpty s.storage = ""
    · rw [if_pos hs]
    · rw [if_neg hs]
      show some (jsOrEmpty s.storage) = s.storage
      cases hstor : s.storage with
      | none =>
        rw [hstor] at hs
        exact absurd rfl hs
      | some c =>
        rw [hstor] at hs
        by_cases hc : c = ""
        · rw [hc] at hs
          exact absurd rfl hs
        · show some (if c = "" then "" else c) = some c
          rw [if_neg hc]
  · by_cases hi : jsTrim s.input = ""
    · unfold askPlanStep
      rw [if_pos hi]
      exact h
    · unfold askPlanStep
      rw [if_neg hi]
      cases hr : respond (planRequest envv (jsTrim s.input) s.convId) with
      | error msg => simpa [hr] using h
      | ok data =>
        by_cases hg : adoptGuard data.conversation_id s.convId = true
        · simp [hr, hg]
        · simpa [hr, hg] using h

/-- The client state used to witness claim C10. -/
def c10State : ClientState :=
  { input := "query", busy := false, res := none, err := "",
    convId := some "c1", storage := some "c1" }

/-- Witness for C10 at a concrete agreeing state. -/
theorem c10_convid_storage_agreement_witness :
    (mountEffect "m0" c10State).convId = (mountEffect "m0" c10State).storage ∧
    (resetConversation "m0" c10State).convId =
      (resetConversation "m0" c10State).storage ∧
    (newConversation c10State).convId = (newConversation c10State).storage ∧
    (askPlanStep none (fun _ => Except.error "down") c10State).1.convId =
      (askPlanStep none (fun _ => Except.error "down") c10State).1.storage :=
  c10_convid_storage_agreement "m0" none (fun _ => Except.error "down")
    c10State rfl
